import Mathlib

/-
Verification of the inference-dispatch logic of src/app1.py (盐城二手房智能分析器,
a Streamlit front-end that runs three pre-trained models over a user-supplied
feature vector).

Shallow embedding conventions:
  * A Python value that can sit in the input dictionary is `PyVal`
    (int / float / str); Python floats are modelled as rationals.
  * The combined input dictionary `all_inputs` is a `FeatureVec`:
    an association list from feature name to `Option PyVal`, where the
    entry value `none` is Python `None` (the "无 (不适用)" sentinel) and a
    missing key models a feature the UI never defined.
  * The three model objects, the scaler and its `transform` are opaque
    oracles passed in as functions returning `Except String _`; an
    `Except.error e` models a raised exception whose text is `e`.
  * The mutable script-level variables of the prediction section
    (error_messages, insufficient_data_flags, the four result variables,
    lines 436-442) are the fields of `PredState`; the three per-target
    dispatch blocks (lines 476-602) are state transformers applied in
    source order, and the result-display section (lines 634-713) is
    modelled by the render functions at the end of the definitions.
  * Python string formatting is reproduced literally except that the
    surrounding quote characters of repr-formatted values are dropped
    (they cannot appear in this development) and the running index of the
    user-facing error list is kept as a decimal prefix.
-/

/-- A Python value as it can appear in the input dictionary or as a raw
model prediction: an integer, a float (modelled as a rational), or a
string. -/
inductive PyVal where
  | int (n : Int)
  | float (q : Rat)
  | str (s : String)
deriving DecidableEq

/-- The combined `all_inputs` dictionary (lines 419-433): feature name to
value, where the value `none` is Python `None`. -/
abbrev FeatureVec := List (String × Option PyVal)

/-- Dictionary lookup into `all_inputs`: outer `none` means the key is
absent (would raise `KeyError`), `some none` means the key maps to
Python `None`. -/
def lookupInput (V : FeatureVec) (k : String) : Option (Option PyVal) :=
  (V.find? (fun p => p.1 == k)).map (fun p => p.2)

/-- The `feature_to_label` dictionary of lines 248-262, mapping internal
feature names to user-interface labels. -/
def feature_to_label : List (String × String) :=
  [("方位", "房屋方位:"), ("楼层", "楼层位置:"), ("所属区域", "所属区域:"), ("房龄", "房龄:"),
   ("总价(万)", "总价 (万):"), ("面积(㎡)", "面积 (㎡):"), ("建造时间", "建造时间 (年份):"),
   ("楼层数", "总楼层数:"), ("室", "室:"), ("厅", "厅:"), ("卫", "卫:")]

/-- `feature_to_label.get(feat, feat)`: the display label of a feature,
falling back to the internal name. -/
def labelFor (feat : String) : String :=
  ((feature_to_label.find? (fun p => p.1 == feat)).map (fun p => p.2)).getD feat

/-- The hard-coded regression feature list of line 35
(`REQUIRED_REGRESSION_FEATURES`). -/
def REQUIRED_REGRESSION_FEATURES : List String :=
  ["所属区域", "房龄", "面积(㎡)", "楼层数", "建造时间", "室", "厅", "卫"]

/-- The `missing_for_model` list built by `check_sufficiency`
(lines 456-467): one entry per required feature that is either not a key
of `all_inputs` (label suffixed with " (UI未定义)") or maps to `None`
(plain label). -/
def missingFeatures : List String → FeatureVec → List String
  | [], _ => []
  | feat :: rest, V =>
    match lookupInput V feat with
    | none => (labelFor feat ++ " (UI未定义)") :: missingFeatures rest V
    | some none => labelFor feat :: missingFeatures rest V
    | some (some _) => missingFeatures rest V

/-- `check_sufficiency` (lines 445-474): sufficient iff no required
feature is missing; the second component is the list of display labels of
the missing features (the function's `missing_for_model`). -/
def check_sufficiency (required : List String) (V : FeatureVec) : Bool × List String :=
  let missing := missingFeatures required V
  (missing.isEmpty, missing)

/-- Whether a feature name is a key of the input vector that maps to a
non-`None` value. -/
def hasValue (V : FeatureVec) (feat : String) : Bool :=
  match lookupInput V feat with
  | some (some _) => true
  | _ => false

/-- The display label recorded for a missing feature: with the
" (UI未定义)" suffix when the key is absent altogether. -/
def missingLabel (V : FeatureVec) (feat : String) : String :=
  match lookupInput V feat with
  | none => labelFor feat ++ " (UI未定义)"
  | some _ => labelFor feat

/-- Python `set(a) != set(b)` negated: the two name lists contain exactly
the same names (line 75). -/
def sameFeatureSet (a b : List String) : Bool :=
  a.all (fun x => b.contains x) && b.all (fun x => a.contains x)

/-- `hasattr(scaler, 'n_features_in_') and scaler.n_features_in_ !=
len(REQUIRED_REGRESSION_FEATURES)` (lines 79 and 95): `none` models a
scaler without the attribute. -/
def scalerWidthMismatch (scalerNFeatures : Option Nat) : Bool :=
  match scalerNFeatures with
  | some n => n != REQUIRED_REGRESSION_FEATURES.length
  | none => false

/-- The regression-feature validation phase of `load_resources`
(lines 69-98), assuming all six files were present and deserialised.
`loadedRegFeatures` is `feature_names.get('regression')` (`none` when the
key is absent); the result is `true` iff `load_resources` returns the
resources (and `false` iff it returns `None`, the fatal-error path).
Note the scaler width is only examined when the loaded list is absent,
empty, or differs as a set from the hard-coded list. -/
def load_resources_reg_check (loadedRegFeatures : Option (List String))
    (scalerNFeatures : Option Nat) : Bool :=
  match loadedRegFeatures with
  | some l =>
    if l.isEmpty then !(scalerWidthMismatch scalerNFeatures)
    else if sameFeatureSet l REQUIRED_REGRESSION_FEATURES then true
    else !(scalerWidthMismatch scalerNFeatures)
  | none => !(scalerWidthMismatch scalerNFeatures)

/-- Lines 171-198: when `load_resources` returned `None` the app shows the
initialisation error and calls `st.stop()` before any input is accepted. -/
def appHaltsAtStartup (loadedRegFeatures : Option (List String))
    (scalerNFeatures : Option Nat) : Bool :=
  !(load_resources_reg_check loadedRegFeatures scalerNFeatures)

/-- The single-row input assembly
`pd.DataFrame([{feat: all_inputs[feat] for feat in feats}])[feats]`
(lines 488-490, 521-523, 562-564): the row lists the input values in the
declared order of the feature list; an absent key raises `KeyError`. -/
def assembleRow? : List String → FeatureVec → Except String (List (Option PyVal))
  | [], _ => .ok []
  | feat :: rest, V =>
    match lookupInput V feat with
    | none => .error ("KeyError: " ++ feat)
    | some v =>
      match assembleRow? rest V with
      | .error e => .error e
      | .ok row => .ok (v :: row)

/-- Python `int()` applied to a float: truncation toward zero. -/
def pyTrunc (q : Rat) : Int :=
  if q < 0 then -((-q).floor) else q.floor

/-- A key of an output-code-to-label mapping: Python `int` or `str`. -/
inductive MKey where
  | int (n : Int)
  | str (s : String)
deriving DecidableEq

/-- The key coercion of lines 496 and 530-535: a numeric raw prediction
becomes `int(raw)`, anything else is kept as its string form. -/
def coerceKey : PyVal → MKey
  | .int n => .int n
  | .float q => .int (pyTrunc q)
  | .str s => .str s

/-- How a key renders inside the f-string `f"未知编码 ({key})"`. -/
def keyText : MKey → String
  | .int n => toString n
  | .str s => s

/-- `mapping.get(key)` on an output-code-to-label mapping. -/
def lookupCode (m : List (MKey × String)) (k : MKey) : Option String :=
  (m.find? (fun p => p.1 == k)).map (fun p => p.2)

/-- `mapping.get(key, f"未知编码 ({key})")` after coercing the raw
prediction (lines 496-498, and the price-level analogue). -/
def decodeClassLabel (m : List (MKey × String)) (raw : PyVal) : String :=
  (lookupCode m (coerceKey raw)).getD ("未知编码 (" ++ keyText (coerceKey raw) ++ ")")

/-- The price-level decoding of lines 529-539: the label is looked up
under the coerced key with the unknown-code default, the stored code is
the integer value for a numeric raw prediction and the internal error
code -99 for a non-numeric one. -/
def priceLevelDecode (m : List (MKey × String)) (raw : PyVal) : String × Int :=
  match raw with
  | .int n => (decodeClassLabel m (.int n), n)
  | .float q => (decodeClassLabel m (.float q), pyTrunc q)
  | .str s => (decodeClassLabel m (.str s), -99)

/-- The script-level result variables initialised at lines 436-442 and
mutated by the three dispatch blocks. -/
structure PredState where
  error_messages : List String
  market_flag : Bool
  price_flag : Bool
  reg_flag : Bool
  market_pred_label : String
  price_level_pred_label : String
  price_level_pred_code : Int
  unit_price_pred : Rat
deriving DecidableEq

/-- The initial values of lines 436-442. -/
def initState : PredState :=
  { error_messages := []
    market_flag := false
    price_flag := false
    reg_flag := false
    market_pred_label := "等待计算..."
    price_level_pred_label := "等待计算..."
    price_level_pred_code := -99
    unit_price_pred := -1 }

/-- Market-segment dispatch block (lines 476-507). `marketFeats` is
`feature_names_loaded.get('market', [])` with `none` for an absent key;
both an absent key and an empty list take the 配置缺失 path. -/
def marketBlock (marketFeats : Option (List String))
    (predict : List (Option PyVal) → Except String PyVal)
    (outputMap : List (MKey × String)) (V : FeatureVec) (s : PredState) : PredState :=
  match marketFeats with
  | none => { s with market_flag := true, market_pred_label := "配置缺失" }
  | some feats =>
    if feats.isEmpty then { s with market_flag := true, market_pred_label := "配置缺失" }
    else if (check_sufficiency feats V).1 then
      match assembleRow? feats V with
      | .error e =>
        { s with market_pred_label := "预测失败",
                 error_messages := s.error_messages ++ ["市场细分模型预测时发生错误: " ++ e] }
      | .ok row =>
        match predict row with
        | .error e =>
          { s with market_pred_label := "预测失败",
                   error_messages := s.error_messages ++ ["市场细分模型预测时发生错误: " ++ e] }
        | .ok raw => { s with market_pred_label := decodeClassLabel outputMap raw }
    else { s with market_flag := true, market_pred_label := "数据不足" }

/-- Price-level dispatch block (lines 509-551). -/
def priceBlock (priceFeats : Option (List String))
    (predict : List (Option PyVal) → Except String PyVal)
    (outputMap : List (MKey × String)) (V : FeatureVec) (s : PredState) : PredState :=
  match priceFeats with
  | none => { s with price_flag := true, price_level_pred_label := "配置缺失" }
  | some feats =>
    if feats.isEmpty then { s with price_flag := true, price_level_pred_label := "配置缺失" }
    else if (check_sufficiency feats V).1 then
      match assembleRow? feats V with
      | .error e =>
        { s with price_level_pred_label := "预测失败", price_level_pred_code := -99,
                 error_messages := s.error_messages ++ ["价格水平模型预测时发生错误: " ++ e] }
      | .ok row =>
        match predict row with
        | .error e =>
          { s with price_level_pred_label := "预测失败", price_level_pred_code := -99,
                   error_messages := s.error_messages ++ ["价格水平模型预测时发生错误: " ++ e] }
        | .ok raw =>
          { s with price_level_pred_label := (priceLevelDecode outputMap raw).1,
                   price_level_pred_code := (priceLevelDecode outputMap raw).2 }
    else { s with price_flag := true, price_level_pred_label := "数据不足",
                  price_level_pred_code := -99 }

/-- Rendering of `n_scaler_feats` inside the scaler error detail
(line 577): the attribute value, or 未知数量 when absent. -/
def scalerWidthText : Option Nat → String
  | some n => toString n
  | none => "未知数量"

/-- Python `needle in hay` on strings. -/
def containsText (hay needle : String) : Bool :=
  decide (needle.data <:+: hay.data)

/-- The augmented `ValueError` message raised at line 581 for a scaler
mismatch, with the error detail of line 579 (the Python list repr of the
feature names is rendered without quote characters). -/
def scalerErrMsg (scalerNFeatures : Option Nat) : String :=
  "缩放器与提供的特征不匹配。缩放器期望 " ++ scalerWidthText scalerNFeatures ++
  " 个特征, 但提供了 " ++ toString REQUIRED_REGRESSION_FEATURES.length ++ " 个 (" ++
  String.intercalate ", " REQUIRED_REGRESSION_FEATURES ++
  ")。请确保 regression_scaler.joblib 使用相同的特征和顺序进行训练。"

/-- The inner `except ValueError` handler of lines 571-584: an exception
text matching one of the three mismatch patterns is replaced by the
augmented message, any other text is re-raised unchanged. -/
def adjustScalerError (scalerNFeatures : Option Nat) (e : String) : String :=
  if containsText e "feature_names mismatch" || containsText e "number of features" ||
      containsText e "X has" then
    scalerErrMsg scalerNFeatures
  else e

/-- Regression (unit-price) dispatch block (lines 553-602), with the
scaler `transform` and the model `predict` as fallible oracles. -/
def regBlock (scalerNFeatures : Option Nat)
    (scale : List (Option PyVal) → Except String (List Rat))
    (predict : List Rat → Except String Rat)
    (V : FeatureVec) (s : PredState) : PredState :=
  if (check_sufficiency REQUIRED_REGRESSION_FEATURES V).1 then
    match assembleRow? REQUIRED_REGRESSION_FEATURES V with
    | .error e =>
      { s with unit_price_pred := -1,
               error_messages := s.error_messages ++ ["均价预测模型预测时发生错误: " ++ e] }
    | .ok row =>
      match scale row with
      | .error e =>
        { s with unit_price_pred := -1,
                 error_messages := s.error_messages ++
                   ["均价预测模型预测时发生错误: " ++ adjustScalerError scalerNFeatures e] }
      | .ok scaled =>
        match predict scaled with
        | .error e =>
          { s with unit_price_pred := -1,
                   error_messages := s.error_messages ++ ["均价预测模型预测时发生错误: " ++ e] }
        | .ok raw => { s with unit_price_pred := max 0 raw }
  else { s with unit_price_pred := -1, reg_flag := true }

/-- The whole prediction section run on one submit: the three dispatch
blocks applied in source order to the freshly initialised state. -/
def runAll (marketFeats priceFeats : Option (List String))
    (marketMap priceMap : List (MKey × String))
    (mPredict pPredict : List (Option PyVal) → Except String PyVal)
    (scalerNFeatures : Option Nat)
    (scale : List (Option PyVal) → Except String (List Rat))
    (rPredict : List Rat → Except String Rat)
    (V : FeatureVec) : PredState :=
  regBlock scalerNFeatures scale rPredict V
    (priceBlock priceFeats pPredict priceMap V
      (marketBlock marketFeats mPredict marketMap V initState))

/-- What the market-segment result cell can show. -/
inductive DisplayCell where
  | configMissing
  | insufficient
  | failed
  | success (text : String)
deriving DecidableEq

/-- The market-segment result cell (lines 634-653). -/
def renderMarket (s : PredState) : DisplayCell :=
  if s.market_pred_label = "配置缺失" then .configMissing
  else if s.market_flag = true ∨ s.market_pred_label = "数据不足" then .insufficient
  else if s.market_pred_label = "预测失败" then .failed
  else .success s.market_pred_label

/-- What the price-level result cell can show. -/
inductive PriceLevelCell where
  | configMissing
  | insufficient
  | failUnknown
  | above (text : String)
  | notAbove (text : String)
  | unknownState
deriving DecidableEq

/-- The price-level result cell (lines 655-680): the two success branches
require the stored code to be exactly 1 or 0. -/
def renderPriceLevel (s : PredState) : PriceLevelCell :=
  if s.price_level_pred_label = "配置缺失" then .configMissing
  else if s.price_flag = true ∨ s.price_level_pred_label = "数据不足" then .insufficient
  else if s.price_level_pred_label = "预测失败" ∨ s.price_level_pred_code = -99 then .failUnknown
  else if s.price_level_pred_code = 1 then .above s.price_level_pred_label
  else if s.price_level_pred_code = 0 then .notAbove s.price_level_pred_label
  else .unknownState

/-- What the unit-price result cell can show. -/
inductive UnitPriceCell where
  | insufficient
  | failedOrInsufficient
  | success (price : Rat)
deriving DecidableEq

/-- The unit-price result cell (lines 683-698). -/
def renderUnitPrice (s : PredState) : UnitPriceCell :=
  if s.reg_flag = true then .insufficient
  else if s.unit_price_pred = -1 then .failedOrInsufficient
  else .success s.unit_price_pred

/-- The generic per-error line shown to the user at line 708 (without its
running index). -/
def genericErrorLine : String := "分析时出现问题，请检查输入或联系管理员。"

/-- The fixed scaler hint shown at line 713 when a recorded message
matches the mismatch marker (markdown adornments and the message index
omitted; every fragment of the text is constant). -/
def scalerHintText : String :=
  "提示: 检测到均价预测所需的特征与加载的缩放器 (regression_scaler.joblib) 不匹配。请确保代码中定义的特征列表 (REQUIRED_REGRESSION_FEATURES) 与用于训练和保存缩放器的特征列表完全一致（包括顺序）。"

/-- Whether the scaler hint is emitted for a recorded message
(line 712). -/
def scalerHintShown (msg : String) : Bool :=
  containsText msg "缩放器与提供的特征不匹配"

/-- The loop of lines 706-713 rendering the recorded error messages: for
the i-th message the user sees the indexed generic line (the detailed
message goes to the console only), plus the constant scaler hint when the
message matches the mismatch marker. -/
def renderErrorLines : Nat → List String → List String
  | _, [] => []
  | i, m :: rest =>
    (if scalerHintShown m then
      [toString (i + 1) ++ ". " ++ genericErrorLine, scalerHintText]
     else [toString (i + 1) ++ ". " ++ genericErrorLine]) ++ renderErrorLines (i + 1) rest

/-- Everything the user can see in the runtime-error section for a given
`error_messages` list. -/
def userVisibleErrorLines (msgs : List String) : List String :=
  renderErrorLines 0 msgs

/-- A fully populated input vector (every feature key present with a
non-`None` value), used by concrete witnesses. -/
def Vfull : FeatureVec :=
  [("方位", some (PyVal.int 1)), ("楼层", some (PyVal.int 1)), ("所属区域", some (PyVal.int 2)),
   ("房龄", some (PyVal.int 2)), ("总价(万)", some (PyVal.float 120)), ("面积(㎡)", some (PyVal.float 95)),
   ("建造时间", some (PyVal.int 2015)), ("楼层数", some (PyVal.int 18)), ("室", some (PyVal.int 3)),
   ("厅", some (PyVal.int 2)), ("卫", some (PyVal.int 1))]

/-- The input vector of the spec's worked example: every field populated
except 面积(㎡), which is marked "无 (不适用)" (`None`). -/
def V8 : FeatureVec :=
  [("方位", some (PyVal.int 1)), ("楼层", some (PyVal.int 1)), ("所属区域", some (PyVal.int 2)),
   ("房龄", some (PyVal.int 2)), ("总价(万)", some (PyVal.float 120)), ("面积(㎡)", none),
   ("建造时间", some (PyVal.int 2015)), ("楼层数", some (PyVal.int 18)), ("室", some (PyVal.int 3)),
   ("厅", some (PyVal.int 2)), ("卫", some (PyVal.int 1))]

theorem missingFeatures_eq (R : List String) (V : FeatureVec) :
    missingFeatures R V = (R.filter (fun f => !(hasValue V f))).map (missingLabel V) := by
  induction R with
  | nil => rfl
  | cons f rest ih =>
    simp only [missingFeatures]
    cases h : lookupInput V f with
    | none =>
      have hv : hasValue V f = false := by unfold hasValue; rw [h]
      have hm : missingLabel V f = labelFor f ++ " (UI未定义)" := by unfold missingLabel; rw [h]
      simp [List.filter_cons, hv, hm, ih]
    | some v =>
      cases v with
      | none =>
        have hv : hasValue V f = false := by unfold hasValue; rw [h]
        have hm : missingLabel V f = labelFor f := by unfold missingLabel; rw [h]
        simp [List.filter_cons, hv, hm, ih]
      | some w =>
        have hv : hasValue V f = true := by unfold hasValue; rw [h]
        simp [List.filter_cons, hv, ih]

theorem check_sufficiency_fst (R : List String) (V : FeatureVec) :
    (check_sufficiency R V).1 = R.all (hasValue V) := by
  induction R with
  | nil => rfl
  | cons f rest ih =>
    show (missingFeatures (f :: rest) V).isEmpty = _
    simp only [missingFeatures]
    cases h : lookupInput V f with
    | none => simp [List.all_cons, hasValue, h]
    | some v =>
      cases v with
      | none => simp [List.all_cons, hasValue, h]
      | some w =>
        simp only [List.all_cons, hasValue, h, Bool.true_and]
        exact ih

theorem hasValue_iff (V : FeatureVec) (f : String) :
    hasValue V f = true ↔ ∃ v, lookupInput V f = some (some v) := by
  unfold hasValue
  cases h : lookupInput V f with
  | none => simp
  | some v => cases v <;> simp

theorem assembleRow_ok_of_all (R : List String) (V : FeatureVec)
    (h : R.all (hasValue V) = true) :
    assembleRow? R V = .ok (R.map (fun f => (lookupInput V f).getD none)) := by
  induction R with
  | nil => rfl
  | cons f rest ih =>
    simp only [List.all_cons, Bool.and_eq_true] at h
    obtain ⟨v, hv⟩ := (hasValue_iff V f).mp h.1
    simp [assembleRow?, hv, ih h.2]

theorem assembleRow_ok_elim (R : List String) (V : FeatureVec)
    (row : List (Option PyVal)) (h : assembleRow? R V = .ok row) :
    row = R.map (fun f => (lookupInput V f).getD none) := by
  induction R generalizing row with
  | nil => simp [assembleRow?] at h; simp [h]
  | cons f rest ih =>
    simp only [assembleRow?] at h
    cases hf : lookupInput V f with
    | none => rw [hf] at h; cases h
    | some v =>
      rw [hf] at h
      cases hr : assembleRow? rest V with
      | error e => rw [hr] at h; cases h
      | ok row0 =>
        rw [hr] at h
        cases h
        simp [hf, ih row0 hr]

theorem regBlock_preserves (a : Option Nat)
    (b : List (Option PyVal) → Except String (List Rat))
    (c : List Rat → Except String Rat) (V : FeatureVec) (s : PredState) :
    (regBlock a b c V s).market_pred_label = s.market_pred_label ∧
    (regBlock a b c V s).market_flag = s.market_flag ∧
    (regBlock a b c V s).price_level_pred_label = s.price_level_pred_label ∧
    (regBlock a b c V s).price_level_pred_code = s.price_level_pred_code ∧
    (regBlock a b c V s).price_flag = s.price_flag := by
  unfold regBlock
  repeat' split
  all_goals exact ⟨rfl, rfl, rfl, rfl, rfl⟩

theorem marketBlock_preserves (mf : Option (List String))
    (p : List (Option PyVal) → Except String PyVal)
    (m : List (MKey × String)) (V : FeatureVec) (s : PredState) :
    (marketBlock mf p m V s).price_level_pred_label = s.price_level_pred_label ∧
    (marketBlock mf p m V s).price_level_pred_code = s.price_level_pred_code ∧
    (marketBlock mf p m V s).price_flag = s.price_flag ∧
    (marketBlock mf p m V s).reg_flag = s.reg_flag ∧
    (marketBlock mf p m V s).unit_price_pred = s.unit_price_pred := by
  unfold marketBlock
  repeat' split
  all_goals exact ⟨rfl, rfl, rfl, rfl, rfl⟩

theorem priceBlock_preserves (pf : Option (List String))
    (p : List (Option PyVal) → Except String PyVal)
    (m : List (MKey × String)) (V : FeatureVec) (s : PredState) :
    (priceBlock pf p m V s).market_pred_label = s.market_pred_label ∧
    (priceBlock pf p m V s).market_flag = s.market_flag ∧
    (priceBlock pf p m V s).reg_flag = s.reg_flag ∧
    (priceBlock pf p m V s).unit_price_pred = s.unit_price_pred := by
  unfold priceBlock
  repeat' split
  all_goals exact ⟨rfl, rfl, rfl, rfl⟩

theorem priceBlock_fields_congr (pf : Option (List String))
    (p : List (Option PyVal) → Except String PyVal)
    (m : List (MKey × String)) (V : FeatureVec) (s₁ s₂ : PredState)
    (h1 : s₁.price_level_pred_label = s₂.price_level_pred_label)
    (h2 : s₁.price_level_pred_code = s₂.price_level_pred_code)
    (h3 : s₁.price_flag = s₂.price_flag) :
    (priceBlock pf p m V s₁).price_level_pred_label
      = (priceBlock pf p m V s₂).price_level_pred_label ∧
    (priceBlock pf p m V s₁).price_level_pred_code
      = (priceBlock pf p m V s₂).price_level_pred_code ∧
    (priceBlock pf p m V s₁).price_flag = (priceBlock pf p m V s₂).price_flag := by
  unfold priceBlock
  repeat' split
  all_goals exact ⟨by simp [h1, h2, h3], by simp [h1, h2, h3], by simp [h1, h2, h3]⟩

theorem regBlock_fields_congr (a : Option Nat)
    (b : List (Option PyVal) → Except String (List Rat))
    (c : List Rat → Except String Rat) (V : FeatureVec) (s₁ s₂ : PredState)
    (h1 : s₁.reg_flag = s₂.reg_flag)
    (h2 : s₁.unit_price_pred = s₂.unit_price_pred) :
    (regBlock a b c V s₁).reg_flag = (regBlock a b c V s₂).reg_flag ∧
    (regBlock a b c V s₁).unit_price_pred = (regBlock a b c V s₂).unit_price_pred := by
  unfold regBlock
  repeat' split
  all_goals exact ⟨by simp [h1, h2], by simp [h1, h2]⟩

theorem renderMarket_congr (s₁ s₂ : PredState)
    (h1 : s₁.market_pred_label = s₂.market_pred_label)
    (h2 : s₁.market_flag = s₂.market_flag) :
    renderMarket s₁ = renderMarket s₂ := by
  unfold renderMarket
  rw [h1, h2]

theorem renderPriceLevel_congr (s₁ s₂ : PredState)
    (h1 : s₁.price_level_pred_label = s₂.price_level_pred_label)
    (h2 : s₁.price_level_pred_code = s₂.price_level_pred_code)
    (h3 : s₁.price_flag = s₂.price_flag) :
    renderPriceLevel s₁ = renderPriceLevel s₂ := by
  unfold renderPriceLevel
  rw [h1, h2, h3]

theorem renderUnitPrice_congr (s₁ s₂ : PredState)
    (h1 : s₁.reg_flag = s₂.reg_flag)
    (h2 : s₁.unit_price_pred = s₂.unit_price_pred) :
    renderUnitPrice s₁ = renderUnitPrice s₂ := by
  unfold renderUnitPrice
  rw [h1, h2]

/-- C1: `check_sufficiency` returns sufficient = true iff every required
feature name is a key of the input vector that maps to a non-`None`
value; its missing list is exactly the display labels of the missing
required features, in required order, with the " (UI未定义)" suffix for a
name the input dictionary lacks altogether. -/
theorem check_sufficiency_spec (R : List String) (V : FeatureVec) :
    ((check_sufficiency R V).1 = true ↔
      ∀ feat ∈ R, ∃ v, lookupInput V feat = some (some v)) ∧
    (check_sufficiency R V).2
      = (R.filter (fun f => !(hasValue V f))).map (missingLabel V) := by
  constructor
  · rw [check_sufficiency_fst, List.all_eq_true]
    constructor
    · intro h feat hf
      exact (hasValue_iff V feat).mp (h feat hf)
    · intro h feat hf
      exact (hasValue_iff V feat).mpr (h feat hf)
  · exact missingFeatures_eq R V

/-- Witness for C1: on the fully populated vector the check is
sufficient; on the vector with 面积(㎡) marked 无 the missing list is the
one display label. -/
theorem check_sufficiency_spec_witness :
    (check_sufficiency REQUIRED_REGRESSION_FEATURES Vfull).1 = true ∧
    (check_sufficiency REQUIRED_REGRESSION_FEATURES V8).2 = ["面积 (㎡):"] := by
  constructor
  · exact (check_sufficiency_spec REQUIRED_REGRESSION_FEATURES Vfull).1.mpr
      (by intro feat hf; fin_cases hf <;> exact ⟨_, rfl⟩)
  · rw [(check_sufficiency_spec REQUIRED_REGRESSION_FEATURES V8).2]
    decide

/-- C2: if some feature of `REQUIRED_REGRESSION_FEATURES` is absent from
the input vector or maps to `None`, the unit-price cell shows 数据不足
(never a success value), and the block's result is independent of the
scaler and regression-model oracles — neither is invoked. -/
theorem regression_insufficient_never_success
    (f : String) (V : FeatureVec)
    (hf : f ∈ REQUIRED_REGRESSION_FEATURES) (hv : hasValue V f = false)
    (scalerN : Option Nat)
    (scale1 scale2 : List (Option PyVal) → Except String (List Rat))
    (p1 p2 : List Rat → Except String Rat) (s : PredState) :
    renderUnitPrice (regBlock scalerN scale1 p1 V s) = .insufficient ∧
    (∀ q, renderUnitPrice (regBlock scalerN scale1 p1 V s) ≠ .success q) ∧
    regBlock scalerN scale1 p1 V s = regBlock scalerN scale2 p2 V s := by
  have hsuff : (check_sufficiency REQUIRED_REGRESSION_FEATURES V).1 = false := by
    rw [check_sufficiency_fst]
    by_contra hc
    rw [Bool.not_eq_false, List.all_eq_true] at hc
    exact absurd (hc f hf) (by simp [hv])
  refine ⟨?_, ?_, ?_⟩
  · unfold regBlock
    rw [hsuff]
    simp [renderUnitPrice]
  · intro q
    unfold regBlock
    rw [hsuff]
    simp [renderUnitPrice]
  · unfold regBlock
    rw [hsuff]
    simp

/-- Witness for C2 at the concrete example vector. -/
theorem regression_insufficient_never_success_witness :
    renderUnitPrice (regBlock (some 8) (fun _ => .ok []) (fun _ => .ok 7) V8 initState)
      = .insufficient :=
  (regression_insufficient_never_success "面积(㎡)" V8 (by decide) (by decide) (some 8)
    (fun _ => .ok []) (fun _ => .ok []) (fun _ => .ok 7) (fun _ => .ok 7) initState).1

/-- C3 counterexample: when the persisted regression feature list is
present and set-equal to the hard-coded one, the scaler width is not
examined at all: a scaler expecting 5 features (≠ 8) still passes
resource loading and the application does not halt, deferring the
mismatch to the per-request transform error. -/
theorem scaler_width_check_skipped :
    load_resources_reg_check (some REQUIRED_REGRESSION_FEATURES) (some 5) = true ∧
    appHaltsAtStartup (some REQUIRED_REGRESSION_FEATURES) (some 5) = false ∧
    (5 : Nat) ≠ REQUIRED_REGRESSION_FEATURES.length := by
  refine ⟨by decide, by decide, by decide⟩

/-- C3 amended: only when the persisted regression feature list is
absent, empty, or differs as a set from the hard-coded list does a scaler
width different from the hard-coded list length make resource loading
fail and halt the application at startup. -/
theorem scaler_width_mismatch_fatal_when_checked
    (loadedReg : Option (List String)) (n : Nat)
    (hset : ∀ l, loadedReg = some l →
      l.isEmpty = true ∨ sameFeatureSet l REQUIRED_REGRESSION_FEATURES = false)
    (hn : n ≠ REQUIRED_REGRESSION_FEATURES.length) :
    load_resources_reg_check loadedReg (some n) = false ∧
    appHaltsAtStartup loadedReg (some n) = true := by
  have hw : scalerWidthMismatch (some n) = true := by
    unfold scalerWidthMismatch
    exact bne_iff_ne.mpr hn
  cases loadedReg with
  | none =>
    unfold appHaltsAtStartup load_resources_reg_check
    simp [hw]
  | some l =>
    rcases hset l rfl with he | hs
    · unfold appHaltsAtStartup load_resources_reg_check
      simp [he, hw]
    · unfold appHaltsAtStartup load_resources_reg_check
      cases hle : l.isEmpty <;> simp [hle, hs, hw]

/-- Witness for the amended C3: a missing regression list plus a 5-wide
scaler is fatal at load time. -/
theorem scaler_width_mismatch_fatal_when_checked_witness :
    load_resources_reg_check none (some 5) = false ∧
    appHaltsAtStartup none (some 5) = true :=
  scaler_width_mismatch_fatal_when_checked none 5 (fun l h => by cases h) (by decide)

/-- C6: the assembled single-row regression input follows the declared
order of the feature list: the row is the pointwise image of the list
(so reordering the list reorders the row identically), the value at
position i is the input value of the i-th listed feature, and a
permutation of the feature list yields a permutation of the row. -/
theorem row_assembly_order (feats : List String) (V : FeatureVec)
    (row : List (Option PyVal)) (h : assembleRow? feats V = .ok row) :
    row = feats.map (fun f => (lookupInput V f).getD none) ∧
    (∀ i (hi : i < feats.length) (hi2 : i < row.length),
      row.get ⟨i, hi2⟩ = (lookupInput V (feats.get ⟨i, hi⟩)).getD none) ∧
    (∀ feats2 row2, feats.Perm feats2 → assembleRow? feats2 V = .ok row2 →
      row.Perm row2) := by
  have hc := assembleRow_ok_elim feats V row h
  refine ⟨hc, ?_, ?_⟩
  · intro i hi hi2
    subst hc
    simp [List.get_eq_getElem, List.getElem_map]
  · intro feats2 row2 hp h2
    rw [hc, assembleRow_ok_elim feats2 V row2 h2]
    exact hp.map _

/-- Witness for C6 on a concrete two-feature row. -/
theorem row_assembly_order_witness :
    ([some (PyVal.int 3), some (PyVal.int 2)] : List (Option PyVal))
      = ["室", "厅"].map (fun f => (lookupInput Vfull f).getD none) :=
  (row_assembly_order ["室", "厅"] Vfull [some (PyVal.int 3), some (PyVal.int 2)] rfl).1

/-- C8 counterexample: on the example vector (all fields set, 面积(㎡)
marked 无) the missing list is the UI label 面积 (㎡): — with a space and
trailing colon — not the internal feature name 面积(㎡) the claim
states. -/
theorem area_missing_label_mismatch :
    check_sufficiency REQUIRED_REGRESSION_FEATURES V8 = (false, ["面积 (㎡):"]) ∧
    (["面积 (㎡):"] : List String) ≠ ["面积(㎡)"] := by
  refine ⟨by decide, by decide⟩

/-- C8 amended: on that vector the unit-price outcome is the
insufficient-data state and the missing-feature list is exactly the UI
label ["面积 (㎡):"] of the area feature. -/
theorem area_missing_insufficient_ui_label :
    check_sufficiency REQUIRED_REGRESSION_FEATURES V8 = (false, ["面积 (㎡):"]) ∧
    renderUnitPrice (runAll (some ["所属区域"]) (some ["所属区域"]) [] []
      (fun _ => .ok (PyVal.int 0)) (fun _ => .ok (PyVal.int 0)) (some 8)
      (fun _ => .ok []) (fun _ => .ok 0) V8) = .insufficient := by
  refine ⟨by decide, by decide⟩

/-- C9: when the regression pipeline succeeds, the stored unit price is
max(0, raw prediction): it is never negative, and a negative raw
prediction is clamped to 0; the rendered success cell carries exactly
that clamped value. -/
theorem unit_price_clamped (scalerN : Option Nat) (scaled : List Rat) (raw : Rat)
    (V : FeatureVec) (s : PredState)
    (hsuff : (check_sufficiency REQUIRED_REGRESSION_FEATURES V).1 = true)
    (hflag : s.reg_flag = false) :
    (regBlock scalerN (fun _ => .ok scaled) (fun _ => .ok raw) V s).unit_price_pred
      = max 0 raw ∧
    renderUnitPrice (regBlock scalerN (fun _ => .ok scaled) (fun _ => .ok raw) V s)
      = .success (max 0 raw) ∧
    0 ≤ max 0 raw ∧ (raw < 0 → max 0 raw = 0) := by
  have hall : REQUIRED_REGRESSION_FEATURES.all (hasValue V) = true := by
    rw [← check_sufficiency_fst]
    exact hsuff
  have hrow := assembleRow_ok_of_all REQUIRED_REGRESSION_FEATURES V hall
  have hb : regBlock scalerN (fun _ => .ok scaled) (fun _ => .ok raw) V s
      = { s with unit_price_pred := max 0 raw } := by
    unfold regBlock
    rw [hsuff, hrow]
    simp
  have hne : max 0 raw ≠ (-1 : Rat) := by
    intro hE
    have h0 : (0 : Rat) ≤ max 0 raw := le_max_left 0 raw
    rw [hE] at h0
    norm_num at h0
  refine ⟨by rw [hb], ?_, le_max_left 0 raw, fun hneg => max_eq_left hneg.le⟩
  rw [hb]
  unfold renderUnitPrice
  simp [hflag, hne]

/-- Witness for C9: a raw prediction of -5 renders as a success with
value 0. -/
theorem unit_price_clamped_witness :
    renderUnitPrice (regBlock (some 8) (fun _ => .ok []) (fun _ => .ok (-5)) Vfull initState)
      = .success 0 := by
  have h := unit_price_clamped (some 8) [] (-5) Vfull initState (by decide) rfl
  have hm : max (0 : Rat) (-5) = 0 := max_eq_left (by norm_num)
  rw [h.2.1, hm]

/-- C4 counterexample: a non-numeric raw price-level prediction is not
wrapped as a Success: the stored code becomes the internal error code -99
and the cell renders the failure/unknown state, even though the
coerce-lookup-default label was computed. -/
theorem price_level_nonnumeric_not_success :
    (priceBlock (some ["所属区域"]) (fun _ => .ok (PyVal.str "abc")) [(MKey.int 1, "高于均价")]
      [("所属区域", some (PyVal.int 3))] initState).price_level_pred_code = -99 ∧
    renderPriceLevel (priceBlock (some ["所属区域"]) (fun _ => .ok (PyVal.str "abc"))
      [(MKey.int 1, "高于均价")] [("所属区域", some (PyVal.int 3))] initState)
      = .failUnknown := by
  refine ⟨by decide, by decide⟩

/-- C4 amended: every raw classifier output is coerced to the mapping key
type preferring integer (truncating floats) with string as fallback,
looked up in the output mapping, and defaulted to the unknown-code label
when absent; the market-segment dispatcher always stores the resulting
label as its success result, while the price-level dispatcher keeps the
integer code for numeric raw outputs and assigns the internal error code
-99 (a failure, not a Success) to non-numeric ones. -/
theorem classifier_decode_spec (feats : List String) (V : FeatureVec)
    (mMap pMap : List (MKey × String)) (raw : PyVal) (s : PredState)
    (hne : feats.isEmpty = false)
    (hsuff : (check_sufficiency feats V).1 = true) :
    (marketBlock (some feats) (fun _ => .ok raw) mMap V s).market_pred_label
      = (lookupCode mMap (coerceKey raw)).getD
          ("未知编码 (" ++ keyText (coerceKey raw) ++ ")") ∧
    (priceBlock (some feats) (fun _ => .ok raw) pMap V s).price_level_pred_label
      = (lookupCode pMap (coerceKey raw)).getD
          ("未知编码 (" ++ keyText (coerceKey raw) ++ ")") ∧
    (∀ n, raw = PyVal.int n →
      (priceBlock (some feats) (fun _ => .ok raw) pMap V s).price_level_pred_code = n) ∧
    (∀ q, raw = PyVal.float q →
      (priceBlock (some feats) (fun _ => .ok raw) pMap V s).price_level_pred_code
        = pyTrunc q) ∧
    (∀ t, raw = PyVal.str t →
      (priceBlock (some feats) (fun _ => .ok raw) pMap V s).price_level_pred_code = -99) := by
  have hall : feats.all (hasValue V) = true := by
    rw [← check_sufficiency_fst]
    exact hsuff
  have hrow := assembleRow_ok_of_all feats V hall
  have hm : marketBlock (some feats) (fun _ => .ok raw) mMap V s
      = { s with market_pred_label := decodeClassLabel mMap raw } := by
    simp only [marketBlock]
    rw [hne, hsuff, hrow]
    simp
  have hp : priceBlock (some feats) (fun _ => .ok raw) pMap V s
      = { s with price_level_pred_label := (priceLevelDecode pMap raw).1,
                 price_level_pred_code := (priceLevelDecode pMap raw).2 } := by
    simp only [priceBlock]
    rw [hne, hsuff, hrow]
    simp
  refine ⟨by rw [hm]; rfl, ?_, ?_, ?_, ?_⟩
  · rw [hp]
    cases raw <;> rfl
  · intro n h
    subst h
    rw [hp]
    rfl
  · intro q h
    subst h
    rw [hp]
    rfl
  · intro t h
    subst h
    rw [hp]
    rfl

/-- Witness for the amended C4: the spec's worked example — raw price
level 1 with mapping 1 ↦ 高于均价 decodes to that label with code 1. -/
theorem classifier_decode_spec_witness :
    (priceBlock (some ["所属区域"]) (fun _ => .ok (PyVal.int 1)) [(MKey.int 1, "高于均价")]
      [("所属区域", some (PyVal.int 3))] initState).price_level_pred_label = "高于均价" ∧
    (priceBlock (some ["所属区域"]) (fun _ => .ok (PyVal.int 1)) [(MKey.int 1, "高于均价")]
      [("所属区域", some (PyVal.int 3))] initState).price_level_pred_code = 1 := by
  have h := classifier_decode_spec ["所属区域"] [("所属区域", some (PyVal.int 3))]
    [(MKey.int 1, "高于均价")] [(MKey.int 1, "高于均价")] (PyVal.int 1) initState
    (by decide) (by decide)
  exact ⟨h.2.1.trans (by decide), h.2.2.1 1 rfl⟩

/-- C5: a scaler or model exception in the regression block is caught and
converted to the failed state (sentinel -1, failure cell); the detailed
message containing the exception text (possibly rewritten by the scaler
mismatch handler) is recorded for the internal log only, while the
user-visible error section consists of fixed constant lines (the generic
advice line, plus the constant scaler hint when the marker matches), and
no visible line can contain an exception text longer than itself. -/
theorem inference_errors_hidden (scalerN : Option Nat) (V : FeatureVec) (s : PredState)
    (scaled : List Rat) (e : String)
    (hsuff : (check_sufficiency REQUIRED_REGRESSION_FEATURES V).1 = true)
    (hflag : s.reg_flag = false) :
    (regBlock scalerN (fun _ => .ok scaled) (fun _ => .error e) V s).unit_price_pred = -1 ∧
    (regBlock scalerN (fun _ => .ok scaled) (fun _ => .error e) V s).error_messages
      = s.error_messages ++ ["均价预测模型预测时发生错误: " ++ e] ∧
    renderUnitPrice (regBlock scalerN (fun _ => .ok scaled) (fun _ => .error e) V s)
      = .failedOrInsufficient ∧
    (regBlock scalerN (fun _ => .error e) (fun _ => .ok 0) V s).unit_price_pred = -1 ∧
    (regBlock scalerN (fun _ => .error e) (fun _ => .ok 0) V s).error_messages
      = s.error_messages
        ++ ["均价预测模型预测时发生错误: " ++ adjustScalerError scalerN e] ∧
    (∀ m : String, userVisibleErrorLines [m] = ["1. " ++ genericErrorLine] ∨
      userVisibleErrorLines [m] = ["1. " ++ genericErrorLine, scalerHintText]) ∧
    (∀ hay t : String, containsText hay t = true → t.length ≤ hay.length) := by
  have hall : REQUIRED_REGRESSION_FEATURES.all (hasValue V) = true := by
    rw [← check_sufficiency_fst]
    exact hsuff
  have hrow := assembleRow_ok_of_all REQUIRED_REGRESSION_FEATURES V hall
  have hb1 : regBlock scalerN (fun _ => .ok scaled) (fun _ => .error e) V s
      = { s with unit_price_pred := -1,
                 error_messages := s.error_messages
                   ++ ["均价预测模型预测时发生错误: " ++ e] } := by
    unfold regBlock
    rw [hsuff, hrow]
    simp
  have hb2 : regBlock scalerN (fun _ => .error e) (fun _ => .ok 0) V s
      = { s with unit_price_pred := -1,
                 error_messages := s.error_messages
                   ++ ["均价预测模型预测时发生错误: " ++ adjustScalerError scalerN e] } := by
    unfold regBlock
    rw [hsuff, hrow]
    simp
  refine ⟨by rw [hb1], by rw [hb1], ?_, by rw [hb2], by rw [hb2], ?_, ?_⟩
  · rw [hb1]
    unfold renderUnitPrice
    simp [hflag]
  · intro m
    by_cases h : scalerHintShown m = true
    · right
      simp only [userVisibleErrorLines, renderErrorLines, h]
      decide
    · left
      rw [Bool.not_eq_true] at h
      simp only [userVisibleErrorLines, renderErrorLines, h]
      decide
  · intro hay t h
    exact List.IsInfix.length_le (of_decide_eq_true h)

/-- Witness for C5: a concrete model exception is logged in detail while
the user-visible section shows only the generic line. -/
theorem inference_errors_hidden_witness :
    (regBlock (some 8) (fun _ => .ok []) (fun _ => .error "boom") Vfull initState).error_messages
      = ["均价预测模型预测时发生错误: boom"] ∧
    userVisibleErrorLines ["均价预测模型预测时发生错误: boom"]
      = ["1. " ++ genericErrorLine] := by
  have h := inference_errors_hidden (some 8) Vfull initState [] "boom" (by decide) rfl
  refine ⟨?_, by decide⟩
  have h2 := h.2.1
  simpa [initState] using h2

/-- C10: the price-level cell renders a successful prediction only when
the stored integer code is exactly 1 or 0; a non-numeric raw output is
assigned the internal error code -99 and (outside the config-missing and
insufficient states) renders the failure/unknown cell; any other decoded
integer code — whatever label the output mapping supplied for it —
renders the unknown state. -/
theorem price_level_render_codes (s : PredState) (m : List (MKey × String)) (t : String) :
    (∀ l, renderPriceLevel s = .above l ∨ renderPriceLevel s = .notAbove l →
      s.price_level_pred_code = 1 ∨ s.price_level_pred_code = 0) ∧
    (priceLevelDecode m (PyVal.str t)).2 = -99 ∧
    (s.price_level_pred_code = -99 → s.price_level_pred_label ≠ "配置缺失" →
      s.price_flag = false → s.price_level_pred_label ≠ "数据不足" →
      renderPriceLevel s = .failUnknown) ∧
    (s.price_level_pred_code ≠ 1 → s.price_level_pred_code ≠ 0 →
      s.price_level_pred_code ≠ -99 →
      s.price_level_pred_label ≠ "配置缺失" → s.price_flag = false →
      s.price_level_pred_label ≠ "数据不足" → s.price_level_pred_label ≠ "预测失败" →
      renderPriceLevel s = .unknownState) := by
  refine ⟨?_, rfl, ?_, ?_⟩
  · intro l h
    by_cases h1 : s.price_level_pred_label = "配置缺失"
    · simp [renderPriceLevel, h1] at h
    · by_cases h2 : s.price_flag = true ∨ s.price_level_pred_label = "数据不足"
      · simp [renderPriceLevel, h1, h2] at h
      · by_cases h3 : s.price_level_pred_label = "预测失败" ∨ s.price_level_pred_code = -99
        · simp [renderPriceLevel, h1, h2, h3] at h
        · by_cases h4 : s.price_level_pred_code = 1
          · exact Or.inl h4
          · by_cases h5 : s.price_level_pred_code = 0
            · exact Or.inr h5
            · simp [renderPriceLevel, h1, h2, h3, h4, h5] at h
  · intro h99 hcm hfl hdl
    unfold renderPriceLevel
    simp [hcm, hfl, hdl, h99]
  · intro hc1 hc0 hc99 hcm hfl hdl hpf
    unfold renderPriceLevel
    simp [hc1, hc0, hc99, hcm, hfl, hdl, hpf]

/-- Witness for C10: decoded code 2, for which the mapping does supply the
label 中等, renders the unknown state rather than a success. -/
theorem price_level_render_codes_witness :
    renderPriceLevel (priceBlock (some ["所属区域"]) (fun _ => .ok (PyVal.int 2))
      [(MKey.int 2, "中等")] [("所属区域", some (PyVal.int 3))] initState)
      = .unknownState :=
  (price_level_render_codes (priceBlock (some ["所属区域"]) (fun _ => .ok (PyVal.int 2))
      [(MKey.int 2, "中等")] [("所属区域", some (PyVal.int 3))] initState) [] "").2.2.2
    (by decide) (by decide) (by decide) (by decide) (by decide) (by decide) (by decide)

theorem renderMarket_insufficient (s : PredState)
    (hl : s.market_pred_label = "数据不足") (hf : s.market_flag = true) :
    renderMarket s = .insufficient := by
  unfold renderMarket
  rw [hl, hf]
  decide

theorem renderPriceLevel_insufficient (s : PredState)
    (hl : s.price_level_pred_label = "数据不足") (hf : s.price_flag = true) :
    renderPriceLevel s = .insufficient := by
  unfold renderPriceLevel
  rw [hl, hf]
  rw [if_neg (by decide), if_pos (by decide)]

theorem renderUnitPrice_insufficient (s : PredState) (hf : s.reg_flag = true) :
    renderUnitPrice s = .insufficient := by
  unfold renderUnitPrice
  rw [hf]
  rw [if_pos rfl]

/-- C7: insufficient input for one target is a per-target soft failure:
that target's cell renders 数据不足 while the other two cells render
exactly what they render in the pipeline from which the insufficient
target's dispatch block is removed. -/
theorem per_target_isolation (mf pf : Option (List String))
    (mm pm : List (MKey × String))
    (mp pp : List (Option PyVal) → Except String PyVal)
    (scalerN : Option Nat)
    (scale : List (Option PyVal) → Except String (List Rat))
    (rp : List Rat → Except String Rat) (V : FeatureVec) :
    ((check_sufficiency REQUIRED_REGRESSION_FEATURES V).1 = false →
      renderUnitPrice (runAll mf pf mm pm mp pp scalerN scale rp V) = .insufficient ∧
      renderMarket (runAll mf pf mm pm mp pp scalerN scale rp V)
        = renderMarket (priceBlock pf pp pm V (marketBlock mf mp mm V initState)) ∧
      renderPriceLevel (runAll mf pf mm pm mp pp scalerN scale rp V)
        = renderPriceLevel (priceBlock pf pp pm V (marketBlock mf mp mm V initState))) ∧
    (∀ feats, mf = some feats → feats.isEmpty = false →
      (check_sufficiency feats V).1 = false →
      renderMarket (runAll mf pf mm pm mp pp scalerN scale rp V) = .insufficient ∧
      renderPriceLevel (runAll mf pf mm pm mp pp scalerN scale rp V)
        = renderPriceLevel (regBlock scalerN scale rp V (priceBlock pf pp pm V initState)) ∧
      renderUnitPrice (runAll mf pf mm pm mp pp scalerN scale rp V)
        = renderUnitPrice (regBlock scalerN scale rp V (priceBlock pf pp pm V initState))) ∧
    (∀ feats, pf = some feats → feats.isEmpty = false →
      (check_sufficiency feats V).1 = false →
      renderPriceLevel (runAll mf pf mm pm mp pp scalerN scale rp V) = .insufficient ∧
      renderMarket (runAll mf pf mm pm mp pp scalerN scale rp V)
        = renderMarket (regBlock scalerN scale rp V (marketBlock mf mp mm V initState)) ∧
      renderUnitPrice (runAll mf pf mm pm mp pp scalerN scale rp V)
        = renderUnitPrice (regBlock scalerN scale rp V (marketBlock mf mp mm V initState))) := by
  refine ⟨?_, ?_, ?_⟩
  · intro hr
    have hreg : regBlock scalerN scale rp V
        (priceBlock pf pp pm V (marketBlock mf mp mm V initState))
        = { priceBlock pf pp pm V (marketBlock mf mp mm V initState) with
            unit_price_pred := -1, reg_flag := true } := by
      unfold regBlock
      rw [hr]
      simp
    refine ⟨?_, ?_, ?_⟩
    · unfold runAll
      rw [hreg]
      exact renderUnitPrice_insufficient _ rfl
    · unfold runAll
      exact renderMarket_congr _ _
        (regBlock_preserves scalerN scale rp V _).1
        (regBlock_preserves scalerN scale rp V _).2.1
    · unfold runAll
      exact renderPriceLevel_congr _ _
        (regBlock_preserves scalerN scale rp V _).2.2.1
        (regBlock_preserves scalerN scale rp V _).2.2.2.1
        (regBlock_preserves scalerN scale rp V _).2.2.2.2
  · intro feats hmf hne hsf
    subst hmf
    have hM : marketBlock (some feats) mp mm V initState
        = { initState with market_flag := true, market_pred_label := "数据不足" } := by
      simp only [marketBlock]
      rw [hne, hsf]
      simp
    refine ⟨?_, ?_, ?_⟩
    · unfold runAll
      apply renderMarket_insufficient
      · rw [(regBlock_preserves scalerN scale rp V _).1,
          (priceBlock_preserves pf pp pm V _).1, hM]
      · rw [(regBlock_preserves scalerN scale rp V _).2.1,
          (priceBlock_preserves pf pp pm V _).2.1, hM]
    · unfold runAll
      have hpc := priceBlock_fields_congr pf pp pm V
        (marketBlock (some feats) mp mm V initState) initState
        (by rw [hM]) (by rw [hM]) (by rw [hM])
      have e1 : (regBlock scalerN scale rp V
          (priceBlock pf pp pm V (marketBlock (some feats) mp mm V initState))).price_level_pred_label
          = (regBlock scalerN scale rp V (priceBlock pf pp pm V initState)).price_level_pred_label := by
        rw [(regBlock_preserves scalerN scale rp V _).2.2.1,
          (regBlock_preserves scalerN scale rp V _).2.2.1, hpc.1]
      have e2 : (regBlock scalerN scale rp V
          (priceBlock pf pp pm V (marketBlock (some feats) mp mm V initState))).price_level_pred_code
          = (regBlock scalerN scale rp V (priceBlock pf pp pm V initState)).price_level_pred_code := by
        rw [(regBlock_preserves scalerN scale rp V _).2.2.2.1,
          (regBlock_preserves scalerN scale rp V _).2.2.2.1, hpc.2.1]
      have e3 : (regBlock scalerN scale rp V
          (priceBlock pf pp pm V (marketBlock (some feats) mp mm V initState))).price_flag
          = (regBlock scalerN scale rp V (priceBlock pf pp pm V initState)).price_flag := by
        rw [(regBlock_preserves scalerN scale rp V _).2.2.2.2,
          (regBlock_preserves scalerN scale rp V _).2.2.2.2, hpc.2.2]
      exact renderPriceLevel_congr _ _ e1 e2 e3
    · unfold runAll
      have r1 : (priceBlock pf pp pm V (marketBlock (some feats) mp mm V initState)).reg_flag
          = (priceBlock pf pp pm V initState).reg_flag := by
        rw [(priceBlock_preserves pf pp pm V _).2.2.1,
          (priceBlock_preserves pf pp pm V _).2.2.1, hM]
      have r2 : (priceBlock pf pp pm V (marketBlock (some feats) mp mm V initState)).unit_price_pred
          = (priceBlock pf pp pm V initState).unit_price_pred := by
        rw [(priceBlock_preserves pf pp pm V _).2.2.2,
          (priceBlock_preserves pf pp pm V _).2.2.2, hM]
      have hrc := regBlock_fields_congr scalerN scale rp V _ _ r1 r2
      exact renderUnitPrice_congr _ _ hrc.1 hrc.2
  · intro feats hpf hne hsf
    subst hpf
    have hP : priceBlock (some feats) pp pm V (marketBlock mf mp mm V initState)
        = { marketBlock mf mp mm V initState with
            price_flag := true, price_level_pred_label := "数据不足",
            price_level_pred_code := -99 } := by
      simp only [priceBlock]
      rw [hne, hsf]
      simp
    refine ⟨?_, ?_, ?_⟩
    · unfold runAll
      apply renderPriceLevel_insufficient
      · rw [(regBlock_preserves scalerN scale rp V _).2.2.1, hP]
      · rw [(regBlock_preserves scalerN scale rp V _).2.2.2.2, hP]
    · unfold runAll
      have m1 : (priceBlock (some feats) pp pm V (marketBlock mf mp mm V initState)).market_pred_label
          = (marketBlock mf mp mm V initState).market_pred_label :=
        (priceBlock_preserves (some feats) pp pm V _).1
      have m2 : (priceBlock (some feats) pp pm V (marketBlock mf mp mm V initState)).market_flag
          = (marketBlock mf mp mm V initState).market_flag :=
        (priceBlock_preserves (some feats) pp pm V _).2.1
      have e1 : (regBlock scalerN scale rp V
          (priceBlock (some feats) pp pm V (marketBlock mf mp mm V initState))).market_pred_label
          = (regBlock scalerN scale rp V (marketBlock mf mp mm V initState)).market_pred_label := by
        rw [(regBlock_preserves scalerN scale rp V _).1,
          (regBlock_preserves scalerN scale rp V _).1, m1]
      have e2 : (regBlock scalerN scale rp V
          (priceBlock (some feats) pp pm V (marketBlock mf mp mm V initState))).market_flag
          = (regBlock scalerN scale rp V (marketBlock mf mp mm V initState)).market_flag := by
        rw [(regBlock_preserves scalerN scale rp V _).2.1,
          (regBlock_preserves scalerN scale rp V _).2.1, m2]
      exact renderMarket_congr _ _ e1 e2
    · unfold runAll
      have r1 : (priceBlock (some feats) pp pm V (marketBlock mf mp mm V initState)).reg_flag
          = (marketBlock mf mp mm V initState).reg_flag :=
        (priceBlock_preserves (some feats) pp pm V _).2.2.1
      have r2 : (priceBlock (some feats) pp pm V (marketBlock mf mp mm V initState)).unit_price_pred
          = (marketBlock mf mp mm V initState).unit_price_pred :=
        (priceBlock_preserves (some feats) pp pm V _).2.2.2
      have hrc := regBlock_fields_congr scalerN scale rp V _ _ r1 r2
      exact renderUnitPrice_congr _ _ hrc.1 hrc.2

/-- Witness for C7: with only 所属区域 supplied, the regression target is
insufficient while the market cell still renders its successful label. -/
theorem per_target_isolation_witness :
    renderUnitPrice (runAll (some ["所属区域"]) (some ["所属区域"]) [(MKey.int 0, "低端")]
      [(MKey.int 1, "高于均价")] (fun _ => .ok (PyVal.int 0)) (fun _ => .ok (PyVal.int 1))
      (some 8) (fun _ => .ok []) (fun _ => .ok 0)
      [("所属区域", some (PyVal.int 3))]) = .insufficient := by
  have h := (per_target_isolation (some ["所属区域"]) (some ["所属区域"]) [(MKey.int 0, "低端")]
    [(MKey.int 1, "高于均价")] (fun _ => .ok (PyVal.int 0)) (fun _ => .ok (PyVal.int 1))
    (some 8) (fun _ => .ok []) (fun _ => .ok 0)
    [("所属区域", some (PyVal.int 3))]).1 (by decide)
  exact h.1
